import Mathlib

/-!
# Aura window manager: registry, gestures, key handling and startup

A shallow embedding of `src/src/WindowManager.cpp` (class `WindowManager`,
declared in `src/include/WindowManager.hpp`).

* Window and atom identifiers are natural numbers (`Window`, `Atom` are XIDs).
* Every Xlib request the code issues is recorded, in program order, as an
  `XCall`; a member function returns the new object state together with the
  list of requests it issued.
* Values that the code receives from outside (the identifier returned by
  `XCreateSimpleWindow`, the reply of `XGetWMProtocols`, the key codes of the
  keyboard mapping, the content of locals the code reads without having
  assigned them) are explicit arguments.
* `std::unordered_map<Window, Window> clients_` is a list of (client, frame)
  pairs in iteration order; iterators are positions in that list.
* Logging and `std::cout` output have no effect on the state and are left out.
-/

namespace Aura

/-! ## Xlib vocabulary (X.h, Xlib.h, keysymdef.h) -/

abbrev Window := Nat
abbrev Atom := Nat

/-- Xlib `None`: the null resource identifier. -/
def XNone : Nat := 0
/-- Event mask bit `SubstructureNotifyMask` (1 << 19). -/
def SubstructureNotifyMask : Nat := 524288
/-- Event mask bit `SubstructureRedirectMask` (1 << 20). -/
def SubstructureRedirectMask : Nat := 1048576
/-- Event mask bit `ButtonPressMask` (1 << 2). -/
def ButtonPressMask : Nat := 4
/-- Event mask bit `ButtonReleaseMask` (1 << 3). -/
def ButtonReleaseMask : Nat := 8
/-- Event mask bit `ButtonMotionMask` (1 << 13). -/
def ButtonMotionMask : Nat := 8192
/-- Modifier bit `Mod1Mask` (1 << 3), the Alt key. -/
def Mod1Mask : Nat := 8
/-- State bit `Button1Mask` (1 << 8). -/
def Button1Mask : Nat := 256
/-- State bit `Button3Mask` (1 << 10). -/
def Button3Mask : Nat := 1024
/-- Pointer button 1 (left). -/
def Button1 : Nat := 1
/-- Pointer button 3 (right). -/
def Button3 : Nat := 3
/-- Grab mode `GrabModeAsync`. -/
def GrabModeAsync : Nat := 1
/-- Map state `IsViewable`. -/
def IsViewable : Int := 2
/-- Focus revert mode `RevertToPointerRoot`. -/
def RevertToPointerRoot : Nat := 1
/-- Timestamp `CurrentTime`. -/
def CurrentTime : Nat := 0
/-- Keysym of the F4 key. -/
def XK_F4 : Nat := 0xffc1
/-- Keysym of the Tab key. -/
def XK_Tab : Nat := 0xff09
/-- Event type code `ClientMessage`. -/
def ClientMessage : Nat := 33

/-- The bitwise test `a & mask` used as a C++ condition (non-zero is true). -/
def maskSet (a mask : Nat) : Bool := (a &&& mask) != 0

/-- The connection to the display server, reduced to what the code asks of it
without issuing a request: the key codes the keyboard mapping gives to the two
keysyms the manager uses. -/
structure Display where
  keycodeF4 : Nat
  keycodeTab : Nat
  deriving DecidableEq, Repr

/-- Xlib `XKeysymToKeycode`: the key code bound to a keysym, 0 when the keysym
is not bound. Only `XK_F4` and `XK_Tab` are ever asked for. -/
def XKeysymToKeycode (d : Display) (keysym : Nat) : Nat :=
  if keysym = XK_F4 then d.keycodeF4
  else if keysym = XK_Tab then d.keycodeTab
  else 0

/-- The fields of `XWindowAttributes` that `Frame` reads. -/
structure XWindowAttributes where
  x : Int
  y : Int
  width : Int
  height : Int
  override_redirect : Bool
  map_state : Int
  deriving DecidableEq, Repr

/-- Xlib `XWindowChanges`. -/
structure XWindowChanges where
  x : Int
  y : Int
  width : Int
  height : Int
  border_width : Int
  sibling : Window
  stack_mode : Int
  deriving DecidableEq, Repr

/-- The fields of `XUnmapEvent` that the handler reads. -/
structure XUnmapEvent where
  event : Window
  window : Window
  deriving DecidableEq, Repr

/-- The field of `XMapRequestEvent` that the handler reads. -/
structure XMapRequestEvent where
  window : Window
  deriving DecidableEq, Repr

/-- The fields of `XConfigureRequestEvent` that the handler reads. The value
mask is 16 bits wide on the wire. -/
structure XConfigureRequestEvent where
  window : Window
  x : Int
  y : Int
  width : Int
  height : Int
  border_width : Int
  above : Window
  detail : Int
  value_mask : Nat
  deriving DecidableEq, Repr

/-- The fields of `XButtonEvent` that the handlers read. -/
structure XButtonEvent where
  window : Window
  x_root : Int
  y_root : Int
  state : Nat
  button : Nat
  deriving DecidableEq, Repr

/-- The fields of `XMotionEvent` that the handler reads. -/
structure XMotionEvent where
  window : Window
  x_root : Int
  y_root : Int
  state : Nat
  deriving DecidableEq, Repr

/-- The fields of `XKeyEvent` that the handler reads. -/
structure XKeyEvent where
  window : Window
  state : Nat
  keycode : Nat
  deriving DecidableEq, Repr

/-- The two error handlers the manager installs with `XSetErrorHandler`. -/
inductive ErrorHandler where
  | OnWMDetected
  | OnXError
  deriving DecidableEq, Repr

/-- The client message the close branch fills in (`msg.xclient`). -/
structure XClientMessageEvent where
  type : Nat
  message_type : Atom
  window : Window
  format : Nat
  data0 : Nat
  deriving DecidableEq, Repr

/-- One Xlib request, with the arguments the code passes. `int` arguments are
recorded with the value of the `int` expression at the call. -/
inductive XCall where
  | XSetErrorHandler (handler : ErrorHandler)
  | XSelectInput (w : Window) (event_mask : Nat)
  | XSync
  | XGrabServer
  | XUngrabServer
  | XFree
  | XNextEvent
  | XCreateSimpleWindow (parent : Window) (x y width height : Int)
      (border_width border background : Nat) (created : Window)
  | XAddToSaveSet (w : Window)
  | XRemoveFromSaveSet (w : Window)
  | XReparentWindow (w parent : Window) (x y : Int)
  | XMapWindow (w : Window)
  | XUnmapWindow (w : Window)
  | XDestroyWindow (w : Window)
  | XGrabButton (button modifiers : Nat) (grab_window : Window) (owner_events : Bool)
      (event_mask pointer_mode keyboard_mode : Nat) (confine_to cursor : Nat)
  | XGrabKey (keycode modifiers : Nat) (grab_window : Window) (owner_events : Bool)
      (pointer_mode keyboard_mode : Nat)
  | XConfigureWindow (w : Window) (value_mask : Nat) (changes : XWindowChanges)
  | XRaiseWindow (w : Window)
  | XMoveWindow (w : Window) (x y : Int)
  | XResizeWindow (w : Window) (width height : Int)
  | XKillClient (resource : Window)
  | XSendEvent (w : Window) (msg : XClientMessageEvent)
  | XSetInputFocus (focus : Window) (revert_to time : Nat)
  deriving DecidableEq, Repr

/-! ## Utils.hpp: positions, sizes and displacement vectors

The header is not among the sources. Its types and operators are taken from
what the specification says of them: the operators add and subtract component
by component. The members are declared with the template argument `int`
(`Position<int>`, `Size<int>`, `Vector2D<int>`), so every component is a
32-bit `int` and every sum, difference and negation is taken in that type:
a result outside the range of `int` comes back reduced modulo 2^32. -/

/-- The least value of a 32-bit `int`. -/
def INT_MIN : Int := -2147483648
/-- The greatest value of a 32-bit `int`. -/
def INT_MAX : Int := 2147483647

/-- The value a 32-bit `int` holds for the mathematical result `z` of an
addition, subtraction or negation: `z` itself when it is in range, otherwise
`z` reduced modulo 2^32 into the range (two's complement). -/
def wrapInt (z : Int) : Int := (z + 2147483648) % 4294967296 - 2147483648

/-- Modelled from the spec: `Vector2D<int>` of `Utils.hpp`, which is not among
the sources; a displacement with two integer components. -/
structure Vector2D where
  x : Int
  y : Int
  deriving DecidableEq, Repr

/-- Modelled from the spec: `Position<int>` of `Utils.hpp`, which is not among
the sources; a point with two integer coordinates. -/
structure Position where
  x : Int
  y : Int
  deriving DecidableEq, Repr

/-- Modelled from the spec: `Size<int>` of `Utils.hpp`, which is not among the
sources; a width and a height. -/
structure Size where
  width : Int
  height : Int
  deriving DecidableEq, Repr

/-- Modelled from the spec: `operator-` of two positions in `Utils.hpp` (not
among the sources), "delta = current pointer position − anchor pointer
position", component by component, in `int`. -/
def Position.sub (a b : Position) : Vector2D := ⟨wrapInt (a.x - b.x), wrapInt (a.y - b.y)⟩

/-- Modelled from the spec: `operator+` of a position and a vector in
`Utils.hpp` (not among the sources), "anchor frame position + (current pointer
position − anchor pointer position)", component by component, in `int`. -/
def Position.add (p : Position) (v : Vector2D) : Position :=
  ⟨wrapInt (p.x + v.x), wrapInt (p.y + v.y)⟩

/-- Modelled from the spec: `operator+` of a size and a vector in `Utils.hpp`
(not among the sources), "new size = anchor size + clampedDelta", component by
component, in `int`. -/
def Size.add (s : Size) (v : Vector2D) : Size :=
  ⟨wrapInt (s.width + v.x), wrapInt (s.height + v.y)⟩

/-! ## The client registry `std::unordered_map<Window, Window>` -/

/-- The registry in iteration order: (client window, frame) pairs. Every
operation below keeps the keys distinct. -/
abbrev Registry := List (Window × Window)

namespace Registry

/-- The keys in iteration order. -/
def keys (r : Registry) : List Window := r.map Prod.fst

/-- The mapped value of a key, when the key is present. -/
def lookup (r : Registry) (k : Window) : Option Window :=
  match r with
  | [] => none
  | (k', v) :: rest => if k' = k then some v else lookup rest k

/-- Member `count(k)`: 1 when the key is present, else 0. -/
def count (r : Registry) (k : Window) : Nat :=
  if (lookup r k).isSome then 1 else 0

/-- Member `find(k)`: the position of the key, `end()` (the length) when absent. -/
def find (r : Registry) (k : Window) : Nat :=
  match r with
  | [] => 0
  | (k', _) :: rest => if k' = k then 0 else find rest k + 1

/-- Member `operator[]` read as an rvalue: the mapped value; an absent key is
first inserted with a value-initialised (zero) mapped value. The position of a
new entry in iteration order is not fixed by the language; the embedding puts
it first, and no theorem below depends on where it goes. -/
def subscript (r : Registry) (k : Window) : Registry × Window :=
  match lookup r k with
  | some v => (r, v)
  | none => ((k, 0) :: r, 0)

/-- Replaces the mapped value of the first entry with key `k`. -/
def replace (r : Registry) (k v : Window) : Registry :=
  match r with
  | [] => []
  | (k', v') :: rest => if k' = k then (k, v) :: rest else (k', v') :: replace rest k v

/-- The assignment `r[k] = v` through `operator[]`. -/
def assign (r : Registry) (k v : Window) : Registry :=
  match lookup r k with
  | some _ => replace r k v
  | none => (k, v) :: r

/-- Member `erase(k)`: removes the entry of the key; the others keep their
relative order. -/
def erase (r : Registry) (k : Window) : Registry :=
  r.filter (fun p => p.1 != k)

end Registry

/-! ## The window manager object -/

/-- The data members of `WindowManager`, the static flag `wmDetected_`, and the
error handler currently installed in Xlib (`none` before the first
`XSetErrorHandler`). -/
structure WindowManager where
  display_ : Display
  root_ : Window
  clients_ : Registry
  dragStartPosition_ : Position
  dragStartFramePosition_ : Position
  dragStartFrameSize_ : Size
  WM_PROTOCOLS : Atom
  WM_DELETE_WINDOW : Atom
  wmDetected_ : Bool
  errorHandler : Option ErrorHandler
  deriving DecidableEq, Repr

/-- What `Frame` takes from outside the object: the content of its local
`xWindowAttrs`, which the function reads without any call having filled it, and
the identifier `XCreateSimpleWindow` returns. -/
structure FrameEnv where
  xWindowAttrs : XWindowAttributes
  frame : Window
  deriving DecidableEq, Repr

namespace WindowManager

/-- The early return of `Frame`: taken only for a window created before the
manager whose attributes say override-redirect or not viewable. -/
def frameSkips (wasCreatedBeforeWindowManager : Bool) (a : XWindowAttributes) : Bool :=
  wasCreatedBeforeWindowManager && (a.override_redirect || a.map_state != IsViewable)

/-- The four grabs `Frame` installs on the client window. -/
def frameGrabs (d : Display) (w : Window) : List XCall :=
  [ XCall.XGrabButton Button1 Mod1Mask w false
      (ButtonPressMask ||| ButtonReleaseMask ||| ButtonMotionMask)
      GrabModeAsync GrabModeAsync XNone XNone,
    XCall.XGrabButton Button3 Mod1Mask w false
      (ButtonPressMask ||| ButtonReleaseMask ||| ButtonMotionMask)
      GrabModeAsync GrabModeAsync XNone XNone,
    XCall.XGrabKey (XKeysymToKeycode d XK_F4) Mod1Mask w false GrabModeAsync GrabModeAsync,
    XCall.XGrabKey (XKeysymToKeycode d XK_Tab) Mod1Mask w false GrabModeAsync GrabModeAsync ]

/-- `WindowManager::Frame(w, wasCreatedBeforeWindowManager)`. -/
def Frame (wm : WindowManager) (w : Window) (wasCreatedBeforeWindowManager : Bool)
    (env : FrameEnv) : WindowManager × List XCall :=
  if frameSkips wasCreatedBeforeWindowManager env.xWindowAttrs then
    (wm, [])
  else
    let frame := env.frame
    ({ wm with clients_ := wm.clients_.assign w frame },
     [ XCall.XCreateSimpleWindow wm.root_ env.xWindowAttrs.x env.xWindowAttrs.y
         env.xWindowAttrs.width env.xWindowAttrs.height 3 0xff0000 0x0000ff frame,
       XCall.XSelectInput frame (SubstructureRedirectMask ||| SubstructureNotifyMask),
       XCall.XAddToSaveSet w,
       XCall.XReparentWindow w frame 0 0,
       XCall.XMapWindow frame ] ++ frameGrabs wm.display_ w)

/-- `WindowManager::Unframe(w)`. -/
def Unframe (wm : WindowManager) (w : Window) : WindowManager × List XCall :=
  let (clients1, frame) := wm.clients_.subscript w
  ({ wm with clients_ := clients1.erase w },
   [ XCall.XUnmapWindow frame,
     XCall.XReparentWindow w wm.root_ 0 0,
     XCall.XRemoveFromSaveSet w,
     XCall.XDestroyWindow frame ])

/-- `WindowManager::OnUnmapNotify`. -/
def OnUnmapNotify (wm : WindowManager) (e : XUnmapEvent) : WindowManager × List XCall :=
  if wm.clients_.count e.window = 0 then
    (wm, [])
  else if e.event = wm.root_ then
    (wm, [])
  else
    Unframe wm e.window

/-- `WindowManager::OnMapRequest`. -/
def OnMapRequest (wm : WindowManager) (e : XMapRequestEvent) (env : FrameEnv) :
    WindowManager × List XCall :=
  let (wm1, calls) := Frame wm e.window false env
  (wm1, calls ++ [XCall.XMapWindow e.window])

/-- `WindowManager::OnConfigureRequest`. -/
def OnConfigureRequest (wm : WindowManager) (e : XConfigureRequestEvent) :
    WindowManager × List XCall :=
  let changes : XWindowChanges :=
    { x := e.x, y := e.y, width := e.width, height := e.height,
      border_width := e.border_width, sibling := e.above, stack_mode := e.detail }
  if wm.clients_.count e.window ≠ 0 then
    let (clients1, frame) := wm.clients_.subscript e.window
    ({ wm with clients_ := clients1 },
     [ XCall.XConfigureWindow frame e.value_mask changes,
       XCall.XConfigureWindow e.window e.value_mask changes ])
  else
    (wm, [XCall.XConfigureWindow e.window e.value_mask changes])

/-- `WindowManager::OnButtonPress`. The locals `x`, `y`, `width`, `height` are
declared and read without being assigned; their content is the argument
`geometry`. -/
def OnButtonPress (wm : WindowManager) (e : XButtonEvent) (geometry : Position × Size) :
    WindowManager × List XCall :=
  let (clients1, frame) := wm.clients_.subscript e.window
  ({ wm with
       clients_ := clients1,
       dragStartPosition_ := ⟨e.x_root, e.y_root⟩,
       dragStartFramePosition_ := geometry.1,
       dragStartFrameSize_ := geometry.2 },
   [XCall.XRaiseWindow frame])

/-- `WindowManager::OnMotionNotify`. The unary minus on the `int` members of
`dragStartFrameSize_` is taken in `int`, like the operators of `Utils.hpp`. -/
def OnMotionNotify (wm : WindowManager) (e : XMotionEvent) : WindowManager × List XCall :=
  let (clients1, frame) := wm.clients_.subscript e.window
  let wm1 := { wm with clients_ := clients1 }
  let dragPosition : Position := ⟨e.x_root, e.y_root⟩
  let delta : Vector2D := dragPosition.sub wm.dragStartPosition_
  if maskSet e.state Button1Mask then
    let destFramePosition := wm.dragStartFramePosition_.add delta
    (wm1, [XCall.XMoveWindow frame destFramePosition.x destFramePosition.y])
  else if maskSet e.state Button3Mask then
    let sizeDelta : Vector2D :=
      ⟨max delta.x (wrapInt (-wm.dragStartFrameSize_.width)),
       max delta.y (wrapInt (-wm.dragStartFrameSize_.height))⟩
    let destFrameSize := wm.dragStartFrameSize_.add sizeDelta
    (wm1, [ XCall.XResizeWindow frame destFrameSize.width destFrameSize.height,
            XCall.XResizeWindow e.window destFrameSize.width destFrameSize.height ])
  else
    (wm1, [])

/-- The outcome of `XGetWMProtocols(display_, e.window, &supportedProtocols,
&numSupportedProtocols)` when it returns non-zero: the address it stores in
`supportedProtocols` and the atoms of the array at that address (their number
is `numSupportedProtocols`). Xlib stores the address of a block it allocated. -/
structure WMProtocols where
  supportedProtocols : Nat
  atoms : List Atom
  deriving DecidableEq, Repr

/-- Size of an `Atom` (`unsigned long`) in address units. -/
def sizeofAtom : Nat := 8

/-- The call `std::find(first, first + n, value)` on an array of atoms at
address `first`: the address of the first element equal to `value`, and
`first + n` (one past the array) when there is none. -/
def std_find (first : Nat) (atoms : List Atom) (value : Atom) : Nat :=
  first + sizeofAtom * atoms.findIdx (fun a => a == value)

/-- The condition of the close branch of `OnKeyPress`:
`XGetWMProtocols(...) && std::find(...)`. The reply is `none` when
`XGetWMProtocols` returns 0; the pointer `std::find` returns is converted to
`bool`, true when it is not null. -/
def closeCondition (wm : WindowManager) (reply : Option WMProtocols) : Bool :=
  match reply with
  | none => false
  | some r => std_find r.supportedProtocols r.atoms wm.WM_DELETE_WINDOW != 0

/-- The local `msg` the close branch fills in. -/
def closeMessage (wm : WindowManager) (e : XKeyEvent) : XClientMessageEvent :=
  { type := ClientMessage, message_type := wm.WM_PROTOCOLS, window := e.window,
    format := 32, data0 := wm.WM_DELETE_WINDOW }

/-- `WindowManager::OnKeyPress`. The result is `none` when the code
dereferences an iterator that designates no entry (undefined behaviour). In
the close branch `msg` is filled in and passed to no request. -/
def OnKeyPress (wm : WindowManager) (e : XKeyEvent) (reply : Option WMProtocols) :
    Option (WindowManager × List XCall) :=
  if maskSet e.state Mod1Mask && (e.keycode == XKeysymToKeycode wm.display_ XK_F4) then
    if closeCondition wm reply then
      let _msg := closeMessage wm e
      some (wm, [])
    else
      some (wm, [XCall.XKillClient e.window])
  else if maskSet e.state Mod1Mask && (e.keycode == XKeysymToKeycode wm.display_ XK_Tab) then
    let i := wm.clients_.find e.window
    let i := i + 1
    let i := if i = wm.clients_.length then 0 else i
    match wm.clients_[i]? with
    | some (client, frame) =>
        some (wm, [ XCall.XRaiseWindow frame,
                    XCall.XSetInputFocus client RevertToPointerRoot CurrentTime ])
    | none => none
  else
    some (wm, [])

/-- `WindowManager::OnWMDetected`: sets the static flag. -/
def OnWMDetected (wm : WindowManager) : WindowManager :=
  { wm with wmDetected_ := true }

/-- `WindowManager::OnXError`: prints the error and returns 0. -/
def OnXError (wm : WindowManager) : WindowManager := wm

/-- Xlib delivering a protocol error to the installed handler. With no handler
installed Xlib's default handler ends the process; `Run` installs one before
its first synchronisation point. -/
def deliverError (wm : WindowManager) : WindowManager :=
  match wm.errorHandler with
  | some ErrorHandler.OnWMDetected => OnWMDetected wm
  | some ErrorHandler.OnXError => OnXError wm
  | none => wm

end WindowManager

/-- The events `Run` dispatches on; `Other` is any type the switch does not
name. Handlers with an empty body need no payload. -/
inductive XEvent where
  | CreateNotify
  | DestroyNotify
  | ReparentNotify
  | MapNotify
  | UnmapNotify (e : XUnmapEvent)
  | ConfigureNotify
  | MapRequest (e : XMapRequestEvent)
  | ConfigureRequest (e : XConfigureRequestEvent)
  | ButtonPress (e : XButtonEvent)
  | ButtonRelease (e : XButtonEvent)
  | MotionNotify (e : XMotionEvent)
  | KeyPress (e : XKeyEvent)
  | KeyRelease (e : XKeyEvent)
  | Other (type : Nat)
  deriving DecidableEq, Repr

/-- What the handler of one event takes from outside the object. -/
structure Outside where
  frameEnv : FrameEnv
  geometry : Position × Size
  reply : Option WindowManager.WMProtocols
  deriving DecidableEq, Repr

/-- Whether a queued event is a motion event of window `w`. -/
def isMotionOf (w : Window) (q : XEvent × Outside) : Bool :=
  match q.1 with
  | XEvent.MotionNotify m => m.window == w
  | _ => false

/-- The loop `while(XCheckTypedWindowEvent(display_, e.xmotion.window,
MotionNotify, &e)) {}`: every queued motion event of the window is taken off
the queue and the last one taken stays in `e`. -/
def drainMotion (first : XEvent × Outside) (w : Window) (queue : List (XEvent × Outside)) :
    (XEvent × Outside) × List (XEvent × Outside) :=
  (((queue.filter (isMotionOf w)).getLast?).getD first,
   queue.filter (fun q => !isMotionOf w q))

namespace WindowManager

/-- The body of the `switch` in `Run` for an event other than a motion event,
and for the motion event left in `e` by the drain loop. -/
def dispatch (wm : WindowManager) (q : XEvent × Outside) :
    Option (WindowManager × List XCall) :=
  match q.1 with
  | XEvent.UnmapNotify e => some (OnUnmapNotify wm e)
  | XEvent.MapRequest e => some (OnMapRequest wm e q.2.frameEnv)
  | XEvent.ConfigureRequest e => some (OnConfigureRequest wm e)
  | XEvent.ButtonPress e => some (OnButtonPress wm e q.2.geometry)
  | XEvent.MotionNotify e => some (OnMotionNotify wm e)
  | XEvent.KeyPress e => OnKeyPress wm e q.2.reply
  | _ => some (wm, [])

/-- The `for(;;)` loop of `Run`, for at most `fuel` iterations over the events
the server has for the manager. With no event left `XNextEvent` blocks. The
result is `none` when a handler runs into undefined behaviour. -/
def eventLoop (fuel : Nat) (wm : WindowManager) (queue : List (XEvent × Outside)) :
    Option (WindowManager × List XCall) :=
  match fuel, queue with
  | 0, _ => some (wm, [])
  | _ + 1, [] => some (wm, [XCall.XNextEvent])
  | n + 1, q :: rest =>
      let (q1, rest1) :=
        match q.1 with
        | XEvent.MotionNotify m => drainMotion q m.window rest
        | _ => (q, rest)
      match dispatch wm q1 with
      | none => none
      | some (wm1, calls1) =>
          match eventLoop n wm1 rest1 with
          | none => none
          | some (wm2, calls2) => some (wm2, XCall.XNextEvent :: calls1 ++ calls2)

/-- The loop `for(i = 0; i < numTopLevelWindows; ++i) Frame(topLevelWindows[i],
true)` of `Run`. -/
def frameAll (wm : WindowManager) (topLevelWindows : List (Window × FrameEnv)) :
    WindowManager × List XCall :=
  match topLevelWindows with
  | [] => (wm, [])
  | (w, env) :: rest =>
      let (wm1, calls1) := Frame wm w true env
      let (wm2, calls2) := frameAll wm1 rest
      (wm2, calls1 ++ calls2)

end WindowManager

/-- How an execution of `Run` ends in the embedding: the function returned, the
execution is inside the event loop (which has no exit), or a handler ran into
undefined behaviour. -/
inductive RunStatus where
  | returned
  | inEventLoop
  | undefinedBehaviour
  deriving DecidableEq, Repr

/-- The state, the requests issued and the status of an execution of `Run`. -/
structure RunResult where
  wm : WindowManager
  calls : List XCall
  status : RunStatus
  deriving DecidableEq, Repr

namespace WindowManager

/-- The statements of `WindowManager::Run` up to and including `XSync`: the
flag is cleared, `OnWMDetected` is installed, substructure redirection is
requested on the root, and the round trip hands a provoked error to the
installed handler. `errorProvoked` says whether the server answers the
`XSelectInput` on the root with a protocol error. -/
def detectOtherWM (wm : WindowManager) (errorProvoked : Bool) : WindowManager × List XCall :=
  let wm1 := { wm with wmDetected_ := false }
  let wm2 := { wm1 with errorHandler := some ErrorHandler.OnWMDetected }
  let wm3 := if errorProvoked then deliverError wm2 else wm2
  (wm3,
   [ XCall.XSetErrorHandler ErrorHandler.OnWMDetected,
     XCall.XSelectInput wm.root_ (SubstructureRedirectMask ||| SubstructureNotifyMask),
     XCall.XSync ])

/-- `WindowManager::Run`. The locals `topLevelWindows` and `numTopLevelWindows`
are read without being assigned; the array they designate is the argument
`topLevelWindows`, with what each `Frame` call takes from outside. The lock on
`wmDetectedMutex_` has no effect in a single thread. -/
def Run (wm : WindowManager) (errorProvoked : Bool)
    (topLevelWindows : List (Window × FrameEnv)) (fuel : Nat)
    (queue : List (XEvent × Outside)) : RunResult :=
  let (wm3, startup) := detectOtherWM wm errorProvoked
  if wm3.wmDetected_ then
    { wm := wm3, calls := startup, status := RunStatus.returned }
  else
    let wm4 := { wm3 with errorHandler := some ErrorHandler.OnXError }
    let (wm5, framing) := frameAll wm4 topLevelWindows
    let adopt : List XCall :=
      [XCall.XSetErrorHandler ErrorHandler.OnXError, XCall.XGrabServer] ++ framing ++
      [XCall.XFree, XCall.XUngrabServer]
    match eventLoop fuel wm5 queue with
    | none => { wm := wm5, calls := startup ++ adopt, status := RunStatus.undefinedBehaviour }
    | some (wm6, calls) =>
        { wm := wm6, calls := startup ++ adopt ++ calls, status := RunStatus.inEventLoop }

end WindowManager

/-! ## Sequences of `Frame` and `Unframe` calls -/

/-- One call on the registry: `Frame(w, wasCreatedBeforeWindowManager)` with
what it takes from outside, or `Unframe(w)`. -/
inductive RegistryCall where
  | Frame (w : Window) (wasCreatedBeforeWindowManager : Bool) (env : FrameEnv)
  | Unframe (w : Window)
  deriving DecidableEq, Repr

/-- The state after one call. -/
def applyCall (wm : WindowManager) (c : RegistryCall) : WindowManager :=
  match c with
  | RegistryCall.Frame w b env => (wm.Frame w b env).1
  | RegistryCall.Unframe w => (wm.Unframe w).1

/-- The state after a sequence of calls, made in order. -/
def applyCalls (wm : WindowManager) (cs : List RegistryCall) : WindowManager :=
  cs.foldl applyCall wm

/-- The windows "framed and not unframed since", in the words of the
specification: a `Frame` call that does not skip adds its window, a skipped one
adds nothing, an `Unframe` call removes its window. -/
def framedWindows (framed : Finset Window) (cs : List RegistryCall) : Finset Window :=
  match cs with
  | [] => framed
  | RegistryCall.Frame w b env :: rest =>
      framedWindows
        (if WindowManager.frameSkips b env.xWindowAttrs then framed else insert w framed) rest
  | RegistryCall.Unframe w :: rest => framedWindows (framed.erase w) rest

/-- Whether a request is a reparent of window `w`. -/
def isReparentOf (w : Window) (c : XCall) : Bool :=
  match c with
  | XCall.XReparentWindow w1 _ _ _ => w1 == w
  | _ => false

/-- Whether a request changes the save-set membership of window `w`. -/
def isSaveSetOf (w : Window) (c : XCall) : Bool :=
  match c with
  | XCall.XAddToSaveSet w1 => w1 == w
  | XCall.XRemoveFromSaveSet w1 => w1 == w
  | _ => false

/-! ## Concrete inputs used to evaluate the embedding -/

/-- A manager with three framed clients, in the middle of a gesture anchored at
pointer (50,50), frame position (10,10) and frame size (200,100). -/
def exampleWM : WindowManager :=
  { display_ := ⟨70, 23⟩, root_ := 1, clients_ := [(7, 100), (8, 101), (9, 102)],
    dragStartPosition_ := ⟨50, 50⟩, dragStartFramePosition_ := ⟨10, 10⟩,
    dragStartFrameSize_ := ⟨200, 100⟩, WM_PROTOCOLS := 300, WM_DELETE_WINDOW := 301,
    wmDetected_ := false, errorHandler := some ErrorHandler.OnXError }

/-- The manager as constructed, before `Run`: no client, no handler installed. -/
def freshWM : WindowManager :=
  { exampleWM with clients_ := [], errorHandler := none }

/-- The manager `exampleWM` with a gesture anchored at frame position
(INT_MAX, 10) and frame size (INT_MAX, 100), the anchor pointer still (50,50). -/
def wideAnchorWM : WindowManager :=
  { exampleWM with
      dragStartFramePosition_ := ⟨INT_MAX, 10⟩, dragStartFrameSize_ := ⟨INT_MAX, 100⟩ }

/-- Attributes of an ordinary viewable window at (20,30) of size 640x480. -/
def exampleAttrs : XWindowAttributes :=
  { x := 20, y := 30, width := 640, height := 480, override_redirect := false,
    map_state := IsViewable }

/-- Alt+F4 on client 7. -/
def closeKey : XKeyEvent := { window := 7, state := Mod1Mask, keycode := 70 }

/-- Alt+Tab on client 9, the last entry of `exampleWM`. -/
def cycleKeyLast : XKeyEvent := { window := 9, state := Mod1Mask, keycode := 23 }

/-! ## The registry operations -/

namespace Registry

theorem lookup_eq_none_iff (r : Registry) (k : Window) :
    lookup r k = none ↔ k ∉ keys r := by
  induction r with
  | nil => simp [lookup, keys]
  | cons p rest ih =>
    obtain ⟨k', v⟩ := p
    by_cases h : k' = k
    · simp [lookup, keys, h]
    · have h2 : ¬ k = k' := fun e => h e.symm
      simp only [lookup, if_neg h, ih]
      simp [keys, h2]

theorem subscript_snd (r : Registry) (k : Window) :
    (subscript r k).2 = (lookup r k).getD 0 := by
  unfold subscript
  cases h : lookup r k <;> simp

theorem subscript_fst_of_some (r : Registry) (k v : Window) (h : lookup r k = some v) :
    subscript r k = (r, v) := by
  unfold subscript
  simp [h]

theorem subscript_of_none (r : Registry) (k : Window) (h : lookup r k = none) :
    subscript r k = ((k, 0) :: r, 0) := by
  unfold subscript
  simp [h]

theorem lookup_replace (r : Registry) (k v k2 : Window) (h : lookup r k ≠ none) :
    lookup (replace r k v) k2 = if k2 = k then some v else lookup r k2 := by
  induction r with
  | nil => simp [lookup] at h
  | cons p rest ih =>
    obtain ⟨k', v'⟩ := p
    by_cases hk : k' = k
    · subst hk
      by_cases h2 : k2 = k'
      · subst h2
        simp [replace, lookup]
      · have h3 : ¬ k' = k2 := fun e => h2 e.symm
        simp [replace, lookup, h2, h3]
    · have hrest : lookup rest k ≠ none := by simpa [lookup, hk] using h
      by_cases h2 : k2 = k
      · subst h2
        simp [replace, lookup, hk, ih hrest]
      · by_cases h3 : k' = k2
        · simp [replace, lookup, hk, h3, h2]
        · simp [replace, lookup, hk, h3, h2, ih hrest]

theorem keys_replace (r : Registry) (k v : Window) : keys (replace r k v) = keys r := by
  induction r with
  | nil => rfl
  | cons p rest ih =>
    obtain ⟨k', v'⟩ := p
    by_cases hk : k' = k
    · simp [replace, keys, hk]
    · simp only [replace, if_neg hk]
      simp only [keys, List.map_cons] at ih ⊢
      rw [ih]

theorem lookup_assign (r : Registry) (k v k2 : Window) :
    lookup (assign r k v) k2 = if k2 = k then some v else lookup r k2 := by
  unfold assign
  cases h : lookup r k with
  | none =>
    by_cases h2 : k2 = k
    · subst h2; simp [lookup]
    · have h3 : ¬ k = k2 := fun e => h2 e.symm
      simp [lookup, h2, h3]
  | some v0 =>
    exact lookup_replace r k v k2 (by simp [h])

theorem keys_assign_of_mem (r : Registry) (k v : Window) (h : lookup r k ≠ none) :
    keys (assign r k v) = keys r := by
  unfold assign
  cases h2 : lookup r k with
  | none => exact absurd h2 h
  | some v0 => exact keys_replace r k v

theorem keys_assign_of_not_mem (r : Registry) (k v : Window) (h : lookup r k = none) :
    keys (assign r k v) = k :: keys r := by
  unfold assign
  simp [h, keys]

theorem keys_erase (r : Registry) (k : Window) :
    keys (erase r k) = (keys r).filter (fun x => x != k) := by
  induction r with
  | nil => rfl
  | cons p rest ih =>
    obtain ⟨k', v'⟩ := p
    simp only [erase, keys] at ih ⊢
    by_cases hk : k' = k
    · simp [List.filter_cons, hk, ih]
    · simp [List.filter_cons, hk, ih]

theorem lookup_erase (r : Registry) (k k2 : Window) :
    lookup (erase r k) k2 = if k2 = k then none else lookup r k2 := by
  induction r with
  | nil => simp [erase, lookup]
  | cons p rest ih =>
    obtain ⟨k', v'⟩ := p
    simp only [erase] at ih ⊢
    by_cases hk : k' = k
    · subst hk
      by_cases h2 : k2 = k'
      · subst h2; simp [List.filter_cons, lookup, ih]
      · have h3 : ¬ k' = k2 := fun e => h2 e.symm
        simp [List.filter_cons, lookup, ih, h2, h3]
    · by_cases h2 : k2 = k
      · subst h2
        simp [List.filter_cons, lookup, hk, ih]
      · by_cases h3 : k' = k2
        · simp [List.filter_cons, lookup, hk, h3, h2]
        · simp [List.filter_cons, lookup, hk, h3, h2, ih]

theorem erase_of_not_mem (r : Registry) (k : Window) (h : lookup r k = none) :
    erase r k = r := by
  have hk : k ∉ keys r := (lookup_eq_none_iff r k).1 h
  unfold erase
  rw [List.filter_eq_self]
  intro p hp
  have : p.1 ∈ keys r := List.mem_map_of_mem Prod.fst hp
  have hne : p.1 ≠ k := fun e => hk (e ▸ this)
  simpa using hne

theorem count_eq_zero_iff (r : Registry) (k : Window) :
    count r k = 0 ↔ lookup r k = none := by
  unfold count
  cases h : lookup r k <;> simp

theorem length_eq_keys_length (r : Registry) : r.length = (keys r).length := by
  simp [keys]

end Registry

/-! ## Close negotiation (`OnKeyPress`, Alt+F4) -/

namespace WindowManager

/-- Whenever `XGetWMProtocols` succeeds, the pointer `std::find` returns is not
null, whatever the atoms are: the close branch issues no request at all. -/
theorem OnKeyPress_close_of_reply (wm : WindowManager) (e : XKeyEvent) (r : WMProtocols)
    (hmod : maskSet e.state Mod1Mask = true)
    (hkey : e.keycode = XKeysymToKeycode wm.display_ XK_F4)
    (hptr : r.supportedProtocols ≠ 0) :
    OnKeyPress wm e (some r) = some (wm, []) := by
  have hfind : std_find r.supportedProtocols r.atoms wm.WM_DELETE_WINDOW ≠ 0 := by
    unfold std_find
    omega
  simp [OnKeyPress, closeCondition, hmod, hkey, hfind]

/-- When `XGetWMProtocols` fails, the close branch kills the client. -/
theorem OnKeyPress_close_of_no_reply (wm : WindowManager) (e : XKeyEvent)
    (hmod : maskSet e.state Mod1Mask = true)
    (hkey : e.keycode = XKeysymToKeycode wm.display_ XK_F4) :
    OnKeyPress wm e none = some (wm, [XCall.XKillClient e.window]) := by
  simp [OnKeyPress, closeCondition, hmod, hkey]

end WindowManager

/-- C1 (evaluation of the code): on Alt+F4 for client 7, when the protocol
query succeeds the handler issues no request, neither a client message nor a
kill, both when the list lacks WM_DELETE_WINDOW (atom 301) and when it has it;
only when the query fails does it issue the one kill call. -/
theorem C1_close_key_evaluated :
    exampleWM.OnKeyPress closeKey (some ⟨4096, [302]⟩) = some (exampleWM, []) ∧
    exampleWM.OnKeyPress closeKey (some ⟨4096, [302, 301]⟩) = some (exampleWM, []) ∧
    exampleWM.OnKeyPress closeKey none = some (exampleWM, [XCall.XKillClient 7]) := by
  refine ⟨?_, ?_, ?_⟩ <;> decide

/-! ## Drag gestures (`OnMotionNotify`) -/

/-- A result that is in the range of `int` is held as it is. -/
theorem wrapInt_of_inRange (z : Int) (hlo : INT_MIN ≤ z) (hhi : z ≤ INT_MAX) :
    wrapInt z = z := by
  unfold wrapInt
  unfold INT_MIN at hlo
  unfold INT_MAX at hhi
  omega

/-- C3 as stated fails on the code: at the anchor frame position (INT_MAX, 10),
anchor pointer (50,50) and pointer (80,40), with button 1 held, the sum
INT_MAX + 30 does not fit the `int` it is computed in: frame 100 is moved to
x = -2147483619, which is not anchor + (pointer - anchor pointer) =
2147483677. -/
theorem C3_move_overflow_counterexample :
    maskSet Button1Mask Button1Mask = true ∧
    (wideAnchorWM.OnMotionNotify ⟨7, 80, 40, Button1Mask⟩).2 =
      [XCall.XMoveWindow 100 (-2147483619) 0] ∧
    wideAnchorWM.dragStartFramePosition_.x +
        ((80 : Int) - wideAnchorWM.dragStartPosition_.x) = 2147483677 ∧
    (-2147483619 : Int) ≠ 2147483677 := by
  refine ⟨?_, ?_, ?_, ?_⟩ <;> decide

/-- C3, amended: when on each axis the pointer delta (pointer position minus
anchor pointer position) and the sum anchor frame position + delta are in the
range of a 32-bit `int`, a motion event with button 1 held issues exactly one
request, a move of the frame registered for the window (window 0 when there is
none) to the anchor frame position plus the delta, on each axis and without
any clamp; no resize is issued. -/
theorem C3_move_translates (wm : WindowManager) (e : XMotionEvent)
    (hdx : INT_MIN ≤ e.x_root - wm.dragStartPosition_.x ∧
      e.x_root - wm.dragStartPosition_.x ≤ INT_MAX)
    (hdy : INT_MIN ≤ e.y_root - wm.dragStartPosition_.y ∧
      e.y_root - wm.dragStartPosition_.y ≤ INT_MAX)
    (hsx : INT_MIN ≤ wm.dragStartFramePosition_.x + (e.x_root - wm.dragStartPosition_.x) ∧
      wm.dragStartFramePosition_.x + (e.x_root - wm.dragStartPosition_.x) ≤ INT_MAX)
    (hsy : INT_MIN ≤ wm.dragStartFramePosition_.y + (e.y_root - wm.dragStartPosition_.y) ∧
      wm.dragStartFramePosition_.y + (e.y_root - wm.dragStartPosition_.y) ≤ INT_MAX)
    (h1 : maskSet e.state Button1Mask = true) :
    (wm.OnMotionNotify e).2 =
      [ XCall.XMoveWindow ((wm.clients_.lookup e.window).getD 0)
          (wm.dragStartFramePosition_.x + (e.x_root - wm.dragStartPosition_.x))
          (wm.dragStartFramePosition_.y + (e.y_root - wm.dragStartPosition_.y)) ] := by
  have hdxw : wrapInt (e.x_root - wm.dragStartPosition_.x) =
      e.x_root - wm.dragStartPosition_.x := wrapInt_of_inRange _ hdx.1 hdx.2
  have hdyw : wrapInt (e.y_root - wm.dragStartPosition_.y) =
      e.y_root - wm.dragStartPosition_.y := wrapInt_of_inRange _ hdy.1 hdy.2
  have hsxw : wrapInt (wm.dragStartFramePosition_.x + (e.x_root - wm.dragStartPosition_.x)) =
      wm.dragStartFramePosition_.x + (e.x_root - wm.dragStartPosition_.x) :=
    wrapInt_of_inRange _ hsx.1 hsx.2
  have hsyw : wrapInt (wm.dragStartFramePosition_.y + (e.y_root - wm.dragStartPosition_.y)) =
      wm.dragStartFramePosition_.y + (e.y_root - wm.dragStartPosition_.y) :=
    wrapInt_of_inRange _ hsy.1 hsy.2
  simp only [WindowManager.OnMotionNotify, h1, Registry.subscript_snd, Position.sub,
    Position.add, hdxw, hdyw, hsxw, hsyw, if_true]

/-- C3 (amended) at anchor frame position (10,10), anchor pointer (50,50) and
pointer (80,40): frame 100 is moved to (40,0). -/
theorem C3_move_translates_witness :
    maskSet Button1Mask Button1Mask = true ∧
    (exampleWM.OnMotionNotify ⟨7, 80, 40, Button1Mask⟩).2 = [XCall.XMoveWindow 100 40 0] :=
  ⟨by decide,
   C3_move_translates exampleWM ⟨7, 80, 40, Button1Mask⟩ (by decide) (by decide) (by decide)
     (by decide) (by decide)⟩

/-! ## Configure passthrough (`OnConfigureRequest`) -/

/-- C8: a configure request leaves the object (the registry with it) unchanged
and issues, with the request's value mask and one descriptor made of the
request's x, y, width, height, border width, sibling and stack mode, two
configure requests when the window is a registry key (on its frame, then on
the window) and one, on the window, when it is not. -/
theorem C8_configure_request_verbatim (wm : WindowManager) (e : XConfigureRequestEvent) :
    (wm.OnConfigureRequest e).1 = wm ∧
    (wm.OnConfigureRequest e).2 =
      (match wm.clients_.lookup e.window with
       | some frame =>
           [ XCall.XConfigureWindow frame e.value_mask
               ⟨e.x, e.y, e.width, e.height, e.border_width, e.above, e.detail⟩,
             XCall.XConfigureWindow e.window e.value_mask
               ⟨e.x, e.y, e.width, e.height, e.border_width, e.above, e.detail⟩ ]
       | none =>
           [ XCall.XConfigureWindow e.window e.value_mask
               ⟨e.x, e.y, e.width, e.height, e.border_width, e.above, e.detail⟩ ]) := by
  cases h : wm.clients_.lookup e.window with
  | none =>
    have hc : wm.clients_.count e.window = 0 := (Registry.count_eq_zero_iff _ _).2 h
    simp [WindowManager.OnConfigureRequest, hc]
  | some frame =>
    have hc : wm.clients_.count e.window ≠ 0 := by
      rw [Ne, Registry.count_eq_zero_iff]; simp [h]
    simp [WindowManager.OnConfigureRequest, hc, Registry.subscript_fst_of_some _ _ _ h]

/-! ## Focus cycling (`OnKeyPress`, Alt+Tab) -/

namespace Registry

/-- With distinct keys, `find` returns the position of the entry of the key. -/
theorem find_eq_of_get (r : Registry) (k v : Window) (i : Nat)
    (hnodup : (keys r).Nodup) (hi : r[i]? = some (k, v)) : find r k = i := by
  induction r generalizing i with
  | nil => simp at hi
  | cons p rest ih =>
    obtain ⟨k', v'⟩ := p
    have hnd : k' ∉ keys rest ∧ (keys rest).Nodup := by
      simpa [keys] using hnodup
    cases i with
    | zero =>
      have hp : k' = k := by
        have := hi
        simp at this
        exact this.1
      simp [find, hp]
    | succ j =>
      have hj : rest[j]? = some (k, v) := by simpa using hi
      have hmem : k ∈ keys rest := by
        have := List.getElem?_mem hj
        exact List.mem_map_of_mem Prod.fst this
      have hne : ¬ k' = k := fun e => hnd.1 (e ▸ hmem)
      simp [find, hne, ih j hnd.2 hj]

end Registry

/-- C4: on Alt+Tab (a key code that is not the one of F4) on a window that is
the key of entry `i` of a registry with distinct keys, the handler raises the
frame of, and gives the input focus to the client of, entry `(i + 1) mod n`
of the iteration order, `n` being the number of entries: the next entry, and
the first one after the last; with a single entry that is the entry itself. -/
theorem C4_cycle_selects_next (wm : WindowManager) (e : XKeyEvent)
    (reply : Option WindowManager.WMProtocols) (i : Nat) (frame : Window)
    (hmod : maskSet e.state Mod1Mask = true)
    (htab : e.keycode = XKeysymToKeycode wm.display_ XK_Tab)
    (hf4 : e.keycode ≠ XKeysymToKeycode wm.display_ XK_F4)
    (hnodup : (wm.clients_.keys).Nodup)
    (hi : wm.clients_[i]? = some (e.window, frame)) :
    ∃ client2 frame2,
      wm.clients_[(i + 1) % wm.clients_.length]? = some (client2, frame2) ∧
      wm.OnKeyPress e reply =
        some (wm, [ XCall.XRaiseWindow frame2,
                    XCall.XSetInputFocus client2 RevertToPointerRoot CurrentTime ]) ∧
      (wm.clients_.length = 1 → client2 = e.window ∧ frame2 = frame) := by
  have hlt : i < wm.clients_.length := by
    by_contra hge
    have : wm.clients_[i]? = none := List.getElem?_eq_none (by omega)
    rw [this] at hi
    exact absurd hi (by simp)
  have hfind : wm.clients_.find e.window = i :=
    Registry.find_eq_of_get wm.clients_ e.window frame i hnodup hi
  have hpos : (i + 1) % wm.clients_.length < wm.clients_.length :=
    Nat.mod_lt _ (by omega)
  have hidx : (if i + 1 = wm.clients_.length then 0 else i + 1) =
      (i + 1) % wm.clients_.length := by
    by_cases hlast : i + 1 = wm.clients_.length
    · rw [if_pos hlast, hlast, Nat.mod_self]
    · rw [if_neg hlast, Nat.mod_eq_of_lt (by omega)]
  obtain ⟨⟨client2, frame2⟩, hnext⟩ :
      ∃ p, wm.clients_[(i + 1) % wm.clients_.length]? = some p :=
    ⟨_, List.getElem?_eq_getElem hpos⟩
  refine ⟨client2, frame2, hnext, ?_, ?_⟩
  · have hf4b : (e.keycode == XKeysymToKeycode wm.display_ XK_F4) = false := by
      simpa using hf4
    have htabb : (e.keycode == XKeysymToKeycode wm.display_ XK_Tab) = true := by
      simpa using htab
    unfold WindowManager.OnKeyPress
    simp only [hmod, hf4b, htabb, hfind, hidx, hnext, Bool.and_false, Bool.and_true,
      Bool.false_eq_true, if_false, if_true]
  · intro hone
    have hi0 : i = 0 := by omega
    subst hi0
    have : wm.clients_[(0 + 1) % wm.clients_.length]? = wm.clients_[0]? := by
      rw [hone]
    rw [this, hi] at hnext
    have hp : (e.window, frame) = (client2, frame2) := Option.some.inj hnext
    exact ⟨(congrArg Prod.fst hp).symm, (congrArg Prod.snd hp).symm⟩

/-- C4 on `exampleWM`, whose entries are (7,100), (8,101), (9,102) in that
order: Alt+Tab on client 9, the last entry, raises frame 100 and focuses
client 7, the first entry. -/
theorem C4_cycle_selects_next_witness :
    maskSet cycleKeyLast.state Mod1Mask = true ∧
    cycleKeyLast.keycode = XKeysymToKeycode exampleWM.display_ XK_Tab ∧
    cycleKeyLast.keycode ≠ XKeysymToKeycode exampleWM.display_ XK_F4 ∧
    (exampleWM.clients_.keys).Nodup ∧
    exampleWM.clients_[2]? = some (cycleKeyLast.window, 102) ∧
    exampleWM.OnKeyPress cycleKeyLast none =
      some (exampleWM, [ XCall.XRaiseWindow 100,
                         XCall.XSetInputFocus 7 RevertToPointerRoot CurrentTime ]) := by
  refine ⟨by decide, by decide, by decide, by decide, by decide, ?_⟩
  obtain ⟨client2, frame2, hnext, hcalls, _⟩ :=
    C4_cycle_selects_next exampleWM cycleKeyLast none 2 102
      (by decide) (by decide) (by decide) (by decide) (by decide)
  have hp : (7, 100) = (client2, frame2) := Option.some.inj hnext
  have h1 : client2 = 7 := (congrArg Prod.fst hp).symm
  have h2 : frame2 = 100 := (congrArg Prod.snd hp).symm
  rw [hcalls, h1, h2]

/-! ## Frame and Unframe on the registry -/

namespace WindowManager

theorem Frame_clients (wm : WindowManager) (w : Window) (b : Bool) (env : FrameEnv) :
    (wm.Frame w b env).1.clients_ =
      if frameSkips b env.xWindowAttrs then wm.clients_
      else wm.clients_.assign w env.frame := by
  unfold Frame
  by_cases h : frameSkips b env.xWindowAttrs = true <;> simp [h]

theorem Unframe_clients (wm : WindowManager) (w : Window) :
    (wm.Unframe w).1.clients_ = wm.clients_.erase w := by
  unfold Unframe Registry.subscript
  cases h : wm.clients_.lookup w with
  | none => simp [Registry.erase, List.filter_cons]
  | some v => simp

theorem Unframe_calls (wm : WindowManager) (w : Window) :
    (wm.Unframe w).2 =
      [ XCall.XUnmapWindow ((wm.clients_.lookup w).getD 0),
        XCall.XReparentWindow w wm.root_ 0 0,
        XCall.XRemoveFromSaveSet w,
        XCall.XDestroyWindow ((wm.clients_.lookup w).getD 0) ] := by
  unfold Unframe Registry.subscript
  cases h : wm.clients_.lookup w <;> simp

theorem Frame_root (wm : WindowManager) (w : Window) (b : Bool) (env : FrameEnv) :
    (wm.Frame w b env).1.root_ = wm.root_ := by
  unfold Frame
  by_cases h : frameSkips b env.xWindowAttrs = true <;> simp [h]

end WindowManager

namespace Registry

theorem nodup_keys_assign (r : Registry) (k v : Window) (h : (keys r).Nodup) :
    (keys (assign r k v)).Nodup := by
  cases hl : lookup r k with
  | none =>
    rw [keys_assign_of_not_mem r k v hl]
    exact List.nodup_cons.2 ⟨(lookup_eq_none_iff r k).1 hl, h⟩
  | some v0 =>
    rw [keys_assign_of_mem r k v (by simp [hl])]
    exact h

theorem toFinset_keys_assign (r : Registry) (k v : Window) :
    (keys (assign r k v)).toFinset = insert k (keys r).toFinset := by
  cases hl : lookup r k with
  | none =>
    rw [keys_assign_of_not_mem r k v hl, List.toFinset_cons]
  | some v0 =>
    have hne : lookup r k ≠ none := by simp [hl]
    rw [keys_assign_of_mem r k v hne]
    have hmem : k ∈ keys r := by
      by_contra hc
      exact hne ((lookup_eq_none_iff r k).2 hc)
    rw [Finset.insert_eq_of_mem (List.mem_toFinset.2 hmem)]

theorem nodup_keys_erase (r : Registry) (k : Window) (h : (keys r).Nodup) :
    (keys (erase r k)).Nodup := by
  rw [keys_erase]
  exact h.filter _

theorem toFinset_keys_erase (r : Registry) (k : Window) :
    (keys (erase r k)).toFinset = (keys r).toFinset.erase k := by
  rw [keys_erase]
  ext x
  simp [List.mem_filter, and_comm]

end Registry

/-- The registry invariant carried along a sequence of calls: the keys stay
distinct and the key set follows the windows framed and not unframed since. -/
theorem applyCalls_keys (cs : List RegistryCall) (wm : WindowManager)
    (h : (wm.clients_.keys).Nodup) :
    ((applyCalls wm cs).clients_.keys).Nodup ∧
    ((applyCalls wm cs).clients_.keys).toFinset =
      framedWindows (wm.clients_.keys).toFinset cs := by
  induction cs generalizing wm with
  | nil => exact ⟨h, rfl⟩
  | cons c rest ih =>
    have hstep : applyCalls wm (c :: rest) = applyCalls (applyCall wm c) rest := by
      simp [applyCalls]
    rw [hstep]
    cases c with
    | Frame w b env =>
      have hcl := WindowManager.Frame_clients wm w b env
      by_cases hs : WindowManager.frameSkips b env.xWindowAttrs = true
      · rw [if_pos hs] at hcl
        have h1 : ((applyCall wm (RegistryCall.Frame w b env)).clients_.keys).Nodup := by
          simp only [applyCall, hcl]; exact h
        have := ih _ h1
        simpa [applyCall, hcl, framedWindows, hs] using this
      · rw [if_neg hs] at hcl
        have h1 : ((applyCall wm (RegistryCall.Frame w b env)).clients_.keys).Nodup := by
          simp only [applyCall, hcl]; exact Registry.nodup_keys_assign _ _ _ h
        have := ih _ h1
        simpa [applyCall, hcl, framedWindows, hs, Registry.toFinset_keys_assign] using this
    | Unframe w =>
      have hcl := WindowManager.Unframe_clients wm w
      have h1 : ((applyCall wm (RegistryCall.Unframe w)).clients_.keys).Nodup := by
        simp only [applyCall, hcl]; exact Registry.nodup_keys_erase _ _ h
      have := ih _ h1
      simpa [applyCall, hcl, framedWindows, Registry.toFinset_keys_erase] using this

/-- C5: from an empty registry, after any sequence of `Frame` and `Unframe`
calls the keys of the registry are distinct and are exactly the windows framed
(not skipped) and not unframed since; the number of entries is the number of
such windows; a window outside that set has no entry; and a further `Frame` of
a window that has an entry leaves the number of entries as it is. -/
theorem C5_registry_tracks_framed_windows (wm : WindowManager) (cs : List RegistryCall)
    (hempty : wm.clients_ = []) :
    ((applyCalls wm cs).clients_.keys).Nodup ∧
    ((applyCalls wm cs).clients_.keys).toFinset = framedWindows ∅ cs ∧
    (applyCalls wm cs).clients_.length = (framedWindows ∅ cs).card ∧
    (∀ w, w ∉ framedWindows ∅ cs → (applyCalls wm cs).clients_.lookup w = none) ∧
    (∀ w b env, (applyCalls wm cs).clients_.lookup w ≠ none →
      (((applyCalls wm cs).Frame w b env).1.clients_).length =
        (applyCalls wm cs).clients_.length) := by
  have h0 : (wm.clients_.keys).Nodup := by simp [hempty, Registry.keys]
  obtain ⟨hnd, hset⟩ := applyCalls_keys cs wm h0
  have hset2 : ((applyCalls wm cs).clients_.keys).toFinset = framedWindows ∅ cs := by
    rw [hset]; simp [hempty, Registry.keys]
  refine ⟨hnd, hset2, ?_, ?_, ?_⟩
  · rw [← hset2, List.toFinset_card_of_nodup hnd, Registry.length_eq_keys_length]
  · intro w hw
    rw [Registry.lookup_eq_none_iff]
    intro hmem
    exact hw (hset2 ▸ List.mem_toFinset.2 hmem)
  · intro w b env hkey
    rw [WindowManager.Frame_clients]
    by_cases hs : WindowManager.frameSkips b env.xWindowAttrs = true
    · rw [if_pos hs]
    · rw [if_neg hs, Registry.length_eq_keys_length, Registry.keys_assign_of_mem _ _ _ hkey,
        ← Registry.length_eq_keys_length]

/-- C5 on a concrete sequence from the empty registry: frame 7, frame 8, a
skipped frame of 9 (override-redirect), frame 7 again, unframe 8. Window 7 is
the one window left, with the frame of its second `Frame` call. -/
theorem C5_registry_tracks_framed_windows_witness :
    freshWM.clients_ = [] ∧
    (applyCalls freshWM
      [ RegistryCall.Frame 7 false ⟨exampleAttrs, 100⟩,
        RegistryCall.Frame 8 true ⟨exampleAttrs, 101⟩,
        RegistryCall.Frame 9 true ⟨{ exampleAttrs with override_redirect := true }, 102⟩,
        RegistryCall.Frame 7 false ⟨exampleAttrs, 103⟩,
        RegistryCall.Unframe 8 ]).clients_ = [(7, 103)] ∧
    (applyCalls freshWM
      [ RegistryCall.Frame 7 false ⟨exampleAttrs, 100⟩,
        RegistryCall.Frame 8 true ⟨exampleAttrs, 101⟩,
        RegistryCall.Frame 9 true ⟨{ exampleAttrs with override_redirect := true }, 102⟩,
        RegistryCall.Frame 7 false ⟨exampleAttrs, 103⟩,
        RegistryCall.Unframe 8 ]).clients_.length =
      (framedWindows ∅
        [ RegistryCall.Frame 7 false ⟨exampleAttrs, 100⟩,
          RegistryCall.Frame 8 true ⟨exampleAttrs, 101⟩,
          RegistryCall.Frame 9 true ⟨{ exampleAttrs with override_redirect := true }, 102⟩,
          RegistryCall.Frame 7 false ⟨exampleAttrs, 103⟩,
          RegistryCall.Unframe 8 ]).card :=
  ⟨rfl, by decide, (C5_registry_tracks_framed_windows freshWM _ rfl).2.2.1⟩

/-- C6: for a window `w` that is not a registry key, `Frame(w, false)` followed
by `Unframe(w)` gives a registry with the entries it had before the `Frame`
call (same mapped value for every key, `w` not a key, same number of entries);
in between `w` is mapped to the frame `Frame` created; `Unframe` unmaps and
destroys that frame; the last reparent issued for `w` puts it under the root
at (0,0); and `w` is added to, then removed from, the save-set. -/
theorem C6_frame_unframe_round_trip (wm : WindowManager) (w : Window) (env : FrameEnv)
    (hnew : wm.clients_.lookup w = none) :
    (∀ k, ((wm.Frame w false env).1.Unframe w).1.clients_.lookup k = wm.clients_.lookup k) ∧
    ((wm.Frame w false env).1.Unframe w).1.clients_.lookup w = none ∧
    ((wm.Frame w false env).1.Unframe w).1.clients_.length = wm.clients_.length ∧
    (wm.Frame w false env).1.clients_.lookup w = some env.frame ∧
    (wm.Frame w false env).2 =
      [ XCall.XCreateSimpleWindow wm.root_ env.xWindowAttrs.x env.xWindowAttrs.y
          env.xWindowAttrs.width env.xWindowAttrs.height 3 0xff0000 0x0000ff env.frame,
        XCall.XSelectInput env.frame (SubstructureRedirectMask ||| SubstructureNotifyMask),
        XCall.XAddToSaveSet w,
        XCall.XReparentWindow w env.frame 0 0,
        XCall.XMapWindow env.frame ] ++ WindowManager.frameGrabs wm.display_ w ∧
    ((wm.Frame w false env).1.Unframe w).2 =
      [ XCall.XUnmapWindow env.frame,
        XCall.XReparentWindow w wm.root_ 0 0,
        XCall.XRemoveFromSaveSet w,
        XCall.XDestroyWindow env.frame ] ∧
    (((wm.Frame w false env).2 ++ ((wm.Frame w false env).1.Unframe w).2).filter
        (isReparentOf w)).getLast? = some (XCall.XReparentWindow w wm.root_ 0 0) ∧
    ((wm.Frame w false env).2 ++ ((wm.Frame w false env).1.Unframe w).2).filter
        (isSaveSetOf w) = [XCall.XAddToSaveSet w, XCall.XRemoveFromSaveSet w] := by
  have hskip : WindowManager.frameSkips false env.xWindowAttrs = false := by
    simp [WindowManager.frameSkips]
  have hF : (wm.Frame w false env).1.clients_ = wm.clients_.assign w env.frame := by
    rw [WindowManager.Frame_clients, hskip]; simp
  have hlook : (wm.Frame w false env).1.clients_.lookup w = some env.frame := by
    rw [hF, Registry.lookup_assign]; simp
  have hU : ((wm.Frame w false env).1.Unframe w).1.clients_ = wm.clients_ := by
    rw [WindowManager.Unframe_clients, hF]
    unfold Registry.assign
    rw [hnew]
    simp only [Registry.erase, List.filter_cons]
    simpa [Registry.erase] using Registry.erase_of_not_mem wm.clients_ w hnew
  have hFcalls : (wm.Frame w false env).2 =
      [ XCall.XCreateSimpleWindow wm.root_ env.xWindowAttrs.x env.xWindowAttrs.y
          env.xWindowAttrs.width env.xWindowAttrs.height 3 0xff0000 0x0000ff env.frame,
        XCall.XSelectInput env.frame (SubstructureRedirectMask ||| SubstructureNotifyMask),
        XCall.XAddToSaveSet w,
        XCall.XReparentWindow w env.frame 0 0,
        XCall.XMapWindow env.frame ] ++ WindowManager.frameGrabs wm.display_ w := by
    simp [WindowManager.Frame, hskip]
  have hUcalls : ((wm.Frame w false env).1.Unframe w).2 =
      [ XCall.XUnmapWindow env.frame,
        XCall.XReparentWindow w wm.root_ 0 0,
        XCall.XRemoveFromSaveSet w,
        XCall.XDestroyWindow env.frame ] := by
    rw [WindowManager.Unframe_calls, hlook, WindowManager.Frame_root]
    rfl
  refine ⟨fun k => by rw [hU], by rw [hU]; exact hnew, by rw [hU], hlook, hFcalls, hUcalls,
    ?_, ?_⟩
  · rw [hFcalls, hUcalls]
    simp [isReparentOf, WindowManager.frameGrabs, List.filter_cons]
  · rw [hFcalls, hUcalls]
    simp [isSaveSetOf, WindowManager.frameGrabs, List.filter_cons]

/-- C6 on `exampleWM` and window 5, which is not among its keys 7, 8, 9: after
`Frame` with new frame 104 and `Unframe`, window 5 is again not a key and the
registry has its three entries, and `Unframe` unmapped and destroyed frame 104
and put window 5 under root 1. -/
theorem C6_frame_unframe_round_trip_witness :
    exampleWM.clients_.lookup 5 = none ∧
    ((exampleWM.Frame 5 false ⟨exampleAttrs, 104⟩).1.Unframe 5).1.clients_.lookup 5 = none ∧
    ((exampleWM.Frame 5 false ⟨exampleAttrs, 104⟩).1.Unframe 5).1.clients_.length = 3 ∧
    ((exampleWM.Frame 5 false ⟨exampleAttrs, 104⟩).1.Unframe 5).2 =
      [ XCall.XUnmapWindow 104, XCall.XReparentWindow 5 1 0 0,
        XCall.XRemoveFromSaveSet 5, XCall.XDestroyWindow 104 ] :=
  ⟨by decide,
   (C6_frame_unframe_round_trip exampleWM 5 ⟨exampleAttrs, 104⟩ (by decide)).2.1,
   (C6_frame_unframe_round_trip exampleWM 5 ⟨exampleAttrs, 104⟩ (by decide)).2.2.1,
   (C6_frame_unframe_round_trip exampleWM 5 ⟨exampleAttrs, 104⟩ (by decide)).2.2.2.2.2.1⟩

/-! ## Startup contention (`Run`, `OnWMDetected`) -/

/-- C7: when the request on the root provokes an error, `Run` returns having
issued only the handler installation of `OnWMDetected`, the `XSelectInput` on
the root and the `XSync`: the flag is set, `OnXError` is not installed, the
server is not grabbed, no `Frame` request and no event fetch is issued, and
the registry is the one before. When no error is provoked the flag is false
after the `XSync`, `Run` does not return there, and its next requests install
`OnXError` and grab the server. -/
theorem C7_startup_contention (wm : WindowManager)
    (topLevelWindows : List (Window × FrameEnv)) (fuel : Nat)
    (queue : List (XEvent × Outside)) :
    ((wm.Run true topLevelWindows fuel queue).status = RunStatus.returned ∧
     (wm.Run true topLevelWindows fuel queue).calls =
       [ XCall.XSetErrorHandler ErrorHandler.OnWMDetected,
         XCall.XSelectInput wm.root_ (SubstructureRedirectMask ||| SubstructureNotifyMask),
         XCall.XSync ] ∧
     (wm.Run true topLevelWindows fuel queue).wm.wmDetected_ = true ∧
     (wm.Run true topLevelWindows fuel queue).wm.errorHandler =
       some ErrorHandler.OnWMDetected ∧
     (wm.Run true topLevelWindows fuel queue).wm.clients_ = wm.clients_) ∧
    ((wm.detectOtherWM false).1.wmDetected_ = false ∧
     (wm.Run false topLevelWindows fuel queue).status ≠ RunStatus.returned ∧
     ∃ rest, (wm.Run false topLevelWindows fuel queue).calls =
       [ XCall.XSetErrorHandler ErrorHandler.OnWMDetected,
         XCall.XSelectInput wm.root_ (SubstructureRedirectMask ||| SubstructureNotifyMask),
         XCall.XSync,
         XCall.XSetErrorHandler ErrorHandler.OnXError,
         XCall.XGrabServer ] ++ rest) := by
  refine ⟨?_, ?_, ?_, ?_⟩
  · simp [WindowManager.Run, WindowManager.detectOtherWM, WindowManager.deliverError,
      WindowManager.OnWMDetected]
  · simp [WindowManager.detectOtherWM]
  · unfold WindowManager.Run
    simp only [WindowManager.detectOtherWM, Bool.false_eq_true, if_false]
    split <;> simp
  · unfold WindowManager.Run
    simp only [WindowManager.detectOtherWM, Bool.false_eq_true, if_false]
    split
    · exact ⟨_, by simp; rfl⟩
    · exact ⟨_, by simp; rfl⟩

/-! ## Events on a window that is not a registry key -/

namespace WindowManager

/-- A button press on a window without an entry gives the window an entry with
mapped value 0 and raises window 0. -/
theorem OnButtonPress_absent (wm : WindowManager) (e : XButtonEvent)
    (geometry : Position × Size) (h : wm.clients_.lookup e.window = none) :
    (wm.OnButtonPress e geometry).1.clients_ = (e.window, 0) :: wm.clients_ ∧
    (wm.OnButtonPress e geometry).2 = [XCall.XRaiseWindow 0] := by
  simp [OnButtonPress, Registry.subscript_of_none _ _ h]

/-- A motion event on a window without an entry gives the window an entry with
mapped value 0. -/
theorem OnMotionNotify_absent (wm : WindowManager) (e : XMotionEvent)
    (h : wm.clients_.lookup e.window = none) :
    (wm.OnMotionNotify e).1.clients_ = (e.window, 0) :: wm.clients_ := by
  unfold OnMotionNotify
  rw [Registry.subscript_of_none _ _ h]
  by_cases h1 : maskSet e.state Button1Mask = true
  · simp [h1]
  · by_cases h3 : maskSet e.state Button3Mask = true <;> simp [h1, h3]

end WindowManager

/-- C9 (evaluation of the code): window 5 is not a key of `exampleWM`, which
has three entries; after a button press on window 5 the registry has four
entries, window 5 among them with mapped value 0, and window 0 was raised;
after a motion event on window 5 with button 1 held the registry has the same
added entry and window 0 was moved. -/
theorem C9_absent_window_evaluated :
    exampleWM.clients_.lookup 5 = none ∧ exampleWM.clients_.length = 3 ∧
    (exampleWM.OnButtonPress ⟨5, 80, 40, Mod1Mask, Button1⟩ (⟨0, 0⟩, ⟨0, 0⟩)).1.clients_.lookup 5 =
      some 0 ∧
    (exampleWM.OnButtonPress ⟨5, 80, 40, Mod1Mask, Button1⟩ (⟨0, 0⟩, ⟨0, 0⟩)).1.clients_.length =
      4 ∧
    (exampleWM.OnButtonPress ⟨5, 80, 40, Mod1Mask, Button1⟩ (⟨0, 0⟩, ⟨0, 0⟩)).2 =
      [XCall.XRaiseWindow 0] ∧
    (exampleWM.OnMotionNotify ⟨5, 80, 40, Button1Mask⟩).1.clients_.lookup 5 = some 0 ∧
    (exampleWM.OnMotionNotify ⟨5, 80, 40, Button1Mask⟩).1.clients_.length = 4 ∧
    (exampleWM.OnMotionNotify ⟨5, 80, 40, Button1Mask⟩).2 = [XCall.XMoveWindow 0 40 0] := by
  refine ⟨?_, ?_, ?_, ?_, ?_, ?_, ?_, ?_⟩ <;> decide

/-! ## Unmap notifications (`OnUnmapNotify`) -/

/-- C10: an unmap notification for a window that is not a registry key issues
no request and leaves the object as it is; so does one for a key when the
reporting window is the root; in the remaining case the handler does what
`Unframe` does on a key: it unmaps the frame of the window, reparents the
window to the root at (0,0), removes it from the save-set and destroys the
frame, after which the window is not a key and every other key has the mapped
value it had. -/
theorem C10_unmap_notify_guards_unframe (wm : WindowManager) (e : XUnmapEvent) :
    (wm.clients_.lookup e.window = none → wm.OnUnmapNotify e = (wm, [])) ∧
    (wm.clients_.lookup e.window ≠ none → e.event = wm.root_ →
      wm.OnUnmapNotify e = (wm, [])) ∧
    (∀ frame, wm.clients_.lookup e.window = some frame → e.event ≠ wm.root_ →
      wm.OnUnmapNotify e = wm.Unframe e.window ∧
      (wm.OnUnmapNotify e).2 =
        [ XCall.XUnmapWindow frame,
          XCall.XReparentWindow e.window wm.root_ 0 0,
          XCall.XRemoveFromSaveSet e.window,
          XCall.XDestroyWindow frame ] ∧
      (wm.OnUnmapNotify e).1.clients_.lookup e.window = none ∧
      (∀ k, k ≠ e.window →
        (wm.OnUnmapNotify e).1.clients_.lookup k = wm.clients_.lookup k)) := by
  refine ⟨?_, ?_, ?_⟩
  · intro h
    have hc : wm.clients_.count e.window = 0 := (Registry.count_eq_zero_iff _ _).2 h
    simp [WindowManager.OnUnmapNotify, hc]
  · intro h hroot
    have hc : ¬ wm.clients_.count e.window = 0 := by
      rw [Registry.count_eq_zero_iff]; exact h
    simp [WindowManager.OnUnmapNotify, hc, hroot]
  · intro frame h hroot
    have hc : ¬ wm.clients_.count e.window = 0 := by
      rw [Registry.count_eq_zero_iff]; simp [h]
    have hU : wm.OnUnmapNotify e = wm.Unframe e.window := by
      simp [WindowManager.OnUnmapNotify, hc, hroot]
    refine ⟨hU, ?_, ?_, ?_⟩
    · rw [hU, WindowManager.Unframe_calls, h]; rfl
    · rw [hU, WindowManager.Unframe_clients, Registry.lookup_erase]; simp
    · intro k hk
      rw [hU, WindowManager.Unframe_clients, Registry.lookup_erase]; simp [hk]

/-- C10 on `exampleWM` (root 1, keys 7, 8, 9): a notification for window 5 and
one for window 8 reported on the root do nothing; one for window 8 reported on
its frame 101 unframes it and leaves the entries of 7 and 9. -/
theorem C10_unmap_notify_guards_unframe_witness :
    exampleWM.OnUnmapNotify ⟨101, 5⟩ = (exampleWM, []) ∧
    exampleWM.OnUnmapNotify ⟨1, 8⟩ = (exampleWM, []) ∧
    (exampleWM.OnUnmapNotify ⟨101, 8⟩).2 =
      [ XCall.XUnmapWindow 101, XCall.XReparentWindow 8 1 0 0,
        XCall.XRemoveFromSaveSet 8, XCall.XDestroyWindow 101 ] ∧
    (exampleWM.OnUnmapNotify ⟨101, 8⟩).1.clients_ = [(7, 100), (9, 102)] :=
  ⟨(C10_unmap_notify_guards_unframe exampleWM ⟨101, 5⟩).1 (by decide),
   (C10_unmap_notify_guards_unframe exampleWM ⟨1, 8⟩).2.1 (by decide) (by decide),
   ((C10_unmap_notify_guards_unframe exampleWM ⟨101, 8⟩).2.2 101 (by decide) (by decide)).2.1,
   by decide⟩

/-! ## The skip test and the grabs of `Frame` -/

namespace WindowManager

/-- The early return of `Frame` is decided by the content of the local
`xWindowAttrs` alone: with `wasCreatedBeforeWindowManager` set and a content
that says override-redirect or a map state other than viewable, no request is
issued and the object is unchanged. -/
theorem Frame_skips_on_local_content (wm : WindowManager) (w : Window) (env : FrameEnv)
    (h : env.xWindowAttrs.override_redirect = true ∨ env.xWindowAttrs.map_state ≠ IsViewable) :
    wm.Frame w true env = (wm, []) := by
  have hs : frameSkips true env.xWindowAttrs = true := by
    rcases h with h | h
    · simp [frameSkips, h]
    · simp [frameSkips, h]
  simp [Frame, hs]

/-- A `Frame` call that does not return early (so every call with
`wasCreatedBeforeWindowManager` false) maps the window to the created frame and
issues the creation, the input selection, the save-set insertion, the
reparent, the map of the frame and the four grabs on the window. -/
theorem Frame_of_not_skipped (wm : WindowManager) (w : Window) (b : Bool) (env : FrameEnv)
    (h : frameSkips b env.xWindowAttrs = false) :
    (wm.Frame w b env).1.clients_.lookup w = some env.frame ∧
    (wm.Frame w b env).2 =
      [ XCall.XCreateSimpleWindow wm.root_ env.xWindowAttrs.x env.xWindowAttrs.y
          env.xWindowAttrs.width env.xWindowAttrs.height 3 0xff0000 0x0000ff env.frame,
        XCall.XSelectInput env.frame (SubstructureRedirectMask ||| SubstructureNotifyMask),
        XCall.XAddToSaveSet w,
        XCall.XReparentWindow w env.frame 0 0,
        XCall.XMapWindow env.frame,
        XCall.XGrabButton Button1 Mod1Mask w false
          (ButtonPressMask ||| ButtonReleaseMask ||| ButtonMotionMask)
          GrabModeAsync GrabModeAsync XNone XNone,
        XCall.XGrabButton Button3 Mod1Mask w false
          (ButtonPressMask ||| ButtonReleaseMask ||| ButtonMotionMask)
          GrabModeAsync GrabModeAsync XNone XNone,
        XCall.XGrabKey (XKeysymToKeycode wm.display_ XK_F4) Mod1Mask w false
          GrabModeAsync GrabModeAsync,
        XCall.XGrabKey (XKeysymToKeycode wm.display_ XK_Tab) Mod1Mask w false
          GrabModeAsync GrabModeAsync ] := by
  refine ⟨?_, ?_⟩
  · rw [Frame_clients, h]
    simp [Registry.lookup_assign]
  · simp [Frame, h, frameGrabs]

/-- With `wasCreatedBeforeWindowManager` false the early return is never taken. -/
theorem frameSkips_false (a : XWindowAttributes) : frameSkips false a = false := by
  simp [frameSkips]

end WindowManager

/-- C11 (evaluation of the code): `Frame(9, true)` on the empty registry. The
function asks the server nothing about window 9: what its skip test reads is
the local `xWindowAttrs`, which no call has filled. With a content of the
local that says not override-redirect and viewable, window 9 is framed (frame
102 created, save-set, reparent, four grabs, entry 9 -> 102), whatever the
attributes of window 9 are; with a content that says override-redirect the
same call on the same window returns early. -/
theorem C11_frame_evaluated :
    exampleAttrs.override_redirect = false ∧ exampleAttrs.map_state = IsViewable ∧
    (freshWM.Frame 9 true ⟨exampleAttrs, 102⟩).1.clients_ = [(9, 102)] ∧
    (freshWM.Frame 9 true ⟨exampleAttrs, 102⟩).2 =
      [ XCall.XCreateSimpleWindow 1 20 30 640 480 3 0xff0000 0x0000ff 102,
        XCall.XSelectInput 102 (SubstructureRedirectMask ||| SubstructureNotifyMask),
        XCall.XAddToSaveSet 9,
        XCall.XReparentWindow 9 102 0 0,
        XCall.XMapWindow 102,
        XCall.XGrabButton 1 8 9 false 8204 1 1 0 0,
        XCall.XGrabButton 3 8 9 false 8204 1 1 0 0,
        XCall.XGrabKey 70 8 9 false 1 1,
        XCall.XGrabKey 23 8 9 false 1 1 ] ∧
    freshWM.Frame 9 true ⟨{ exampleAttrs with override_redirect := true }, 102⟩ =
      (freshWM, []) := by
  refine ⟨?_, ?_, ?_, ?_, ?_⟩ <;> decide

end Aura
